import Mathlib

/-!
Verification of the genesis consistency verifier
(`config/management/genesis/src/verify.rs`).

The Rust module is a one-shot diagnostic tool: it dumps the contents of a
validator's secure storage as a text report and, when a genesis blob path is
supplied, replays the genesis transaction against an ephemeral ledger and
compares the recomputed waypoint and on-chain validator keys against the
stored ones.

Shallow embedding conventions:
* The external collaborators (secure storage backend, ledger database,
  genesis executor, file system) are modelled as records of pure
  `Except`-valued functions (`Storage`, `GenesisEnv`); the logic of
  `verify.rs` itself is translated function by function.
* The output buffer built by `writeln!` is modelled as the list of lines
  written so far; each `writeln!` call appends one line.
* Rust `Result<T, Error>` becomes `Except Error T`; the `?` operator becomes
  monadic bind in the `Except` monad.
* Rust `==` on keys, waypoints and options becomes `decide (a = b)` on types
  with decidable equality.
-/

set_option autoImplicit false

namespace GenesisVerify

/-- Opaque public key obtained from a stored bls12381 private key. -/
structure Bls12381PublicKey where
  val : Nat
deriving DecidableEq, Repr

/-- Opaque public key obtained from a stored ed25519 private key. -/
structure Ed25519PublicKey where
  val : Nat
deriving DecidableEq, Repr

/-- Opaque x25519 transport ("noise") public key. -/
structure X25519PublicKey where
  val : Nat
deriving DecidableEq, Repr

/-- Display rendering of a bls12381 public key. -/
def Bls12381PublicKey.toString (k : Bls12381PublicKey) : String :=
  "bls12381-" ++ Nat.repr k.val

/-- Display rendering of an ed25519 public key. -/
def Ed25519PublicKey.toString (k : Ed25519PublicKey) : String :=
  "ed25519-" ++ Nat.repr k.val

/-- Display rendering of an x25519 public key. -/
def X25519PublicKey.toString (k : X25519PublicKey) : String :=
  "x25519-" ++ Nat.repr k.val

/-- Account address on chain. -/
structure AccountAddress where
  val : Nat
deriving DecidableEq, Repr

/-- Display rendering of an account address (Rust debug formatting). -/
def AccountAddress.toString (a : AccountAddress) : String :=
  "0x" ++ Nat.repr a.val

/-- A waypoint: a ledger version together with a hash of the state at that
version (`aptos_types::waypoint::Waypoint`). -/
structure Waypoint where
  version : Nat
  value : Nat
deriving DecidableEq, Repr

/-- Canonical string rendering of a waypoint, `version:hash`. -/
def Waypoint.toString (w : Waypoint) : String :=
  Nat.repr w.version ++ ":" ++ Nat.repr w.value

/-- Numeric value of a decimal digit character, `none` otherwise. -/
def digitVal (c : Char) : Option Nat :=
  if c.isDigit then some (c.toNat - 48) else none

/-- Accumulating decimal parser over a character list. -/
def natOfDigitsAux : List Char → Nat → Option Nat
  | [], acc => some acc
  | c :: cs, acc =>
    match digitVal c with
    | some d => natOfDigitsAux cs (acc * 10 + d)
    | none => none

/-- Decimal parser over a character list; the empty list is not a numeral. -/
def natOfDigits : List Char → Option Nat
  | [] => none
  | cs => natOfDigitsAux cs 0

/-- Split of a character list on a separator character. -/
def splitChar (sep : Char) : List Char → List (List Char)
  | [] => [[]]
  | c :: cs =>
    let rest := splitChar sep cs
    if c = sep then
      [] :: rest
    else
      match rest with
      | [] => [[c]]
      | r :: rs => (c :: r) :: rs

/-- Parse of the canonical waypoint string form `version:hash`; `none` on
malformed input (models `Waypoint::from_str` returning `Err`). -/
def Waypoint.fromStr (s : String) : Option Waypoint :=
  match splitChar ':' s.data with
  | [v, h] =>
    match natOfDigits v, natOfDigits h with
    | some vn, some hn => some ⟨vn, hn⟩
    | _, _ => none
  | _ => none

/-- Consensus safety data record (`consensus_types::safety_data::SafetyData`). -/
structure SafetyData where
  epoch : Nat
  lastVotedRound : Nat
deriving DecidableEq, Repr

/-- Display rendering of safety data. -/
def SafetyData.toString (d : SafetyData) : String :=
  "SafetyData-" ++ Nat.repr d.epoch ++ "-" ++ Nat.repr d.lastVotedRound

/-- The management error type (`aptos_management::error::Error`); the verify
module only constructs the `UnexpectedError` variant. -/
inductive Error where
  | UnexpectedError : String → Error
deriving DecidableEq, Repr

/-- Display text of an error, used when an error is rendered inline as a
report line's value. -/
def Error.toString : Error → String
  | .UnexpectedError s => "Unexpected error: " ++ s

/-- A network address; it may or may not carry an embedded noise transport
public key (`aptos_types::network_address::NetworkAddress`). -/
structure NetworkAddress where
  noiseKey : Option X25519PublicKey
deriving DecidableEq, Repr

/-- Extraction of the embedded noise transport key from a network address
(`NetworkAddress::find_noise_proto`). -/
def NetworkAddress.find_noise_proto (a : NetworkAddress) : Option X25519PublicKey :=
  a.noiseKey

/-- Decidable equality of `Except` results, needed to compare decoded
address lists. -/
instance {ε α : Type} [DecidableEq ε] [DecidableEq α] : DecidableEq (Except ε α) := fun a b =>
  match a, b with
  | .ok x, .ok y =>
    if h : x = y then isTrue (by rw [h]) else isFalse (fun hc => h (by injection hc))
  | .ok _, .error _ => isFalse (fun hc => Except.noConfusion hc)
  | .error _, .ok _ => isFalse (fun hc => Except.noConfusion hc)
  | .error x, .error y =>
    if h : x = y then isTrue (by rw [h]) else isFalse (fun hc => h (by injection hc))

/-- On-chain validator configuration
(`aptos_types::validator_config::ValidatorConfig`). The two address lists are
stored serialized on chain, so reading them can fail; the accessor methods
`validator_network_addresses()` / `fullnode_network_addresses()` return
`Result<Vec<NetworkAddress>>`, modelled as `Except`-valued fields. -/
structure ValidatorConfig where
  consensus_public_key : Bls12381PublicKey
  validator_network_addresses : Except String (List NetworkAddress)
  fullnode_network_addresses : Except String (List NetworkAddress)
deriving DecidableEq, Repr

/-- One entry of the on-chain validator set. -/
structure ValidatorInfo where
  account_address : AccountAddress
  config : ValidatorConfig
deriving DecidableEq, Repr

/-- The on-chain validator set (`on_chain_config::ValidatorSet`), an ordered
sequence of validator registrations. -/
structure ValidatorSet where
  payload : List ValidatorInfo
deriving DecidableEq, Repr

/-- Key names from `aptos_global_constants`. -/
def CONSENSUS_KEY : String := "consensus"

def FULLNODE_NETWORK_KEY : String := "fullnode_network"

def OPERATOR_ACCOUNT : String := "operator_account"

def OPERATOR_KEY : String := "operator"

def OWNER_ACCOUNT : String := "owner_account"

def OWNER_KEY : String := "owner"

def SAFETY_DATA : String := "safety_data"

def VALIDATOR_NETWORK_KEY : String := "validator_network"

def WAYPOINT : String := "waypoint"

/-- The secure storage backend (`aptos_management::storage::StorageWrapper`).
Each typed read takes a key name and either returns the typed value or a
descriptive error; reads have no side effects, so the backend is a record of
pure functions. -/
structure Storage where
  bls12381_public_from_private : String → Except Error Bls12381PublicKey
  ed25519_public_from_private : String → Except Error Ed25519PublicKey
  x25519_public_from_private : String → Except Error X25519PublicKey
  string : String → Except Error String
  safety_data_value : String → Except Error SafetyData
  waypoint : String → Except Error Waypoint
  account_address : String → Except Error AccountAddress

/-- Abstract handle to an opened ledger database (`aptosdb::AptosDB`). -/
structure AptosDB where
  id : Nat
deriving DecidableEq, Repr

/-- Read/write pair over a ledger database
(`storage_interface::DbReaderWriter`). -/
structure DbReaderWriter where
  reader : AptosDB
deriving DecidableEq, Repr

/-- Construction of a `DbReaderWriter` from an opened database
(`DbReaderWriter::new`). -/
def DbReaderWriter.new (db : AptosDB) : DbReaderWriter := ⟨db⟩

/-- Abstract handle to an opened genesis file. -/
structure GenesisFile where
  id : Nat
deriving DecidableEq, Repr

/-- Abstract latest-checkpoint state view over a ledger database. -/
structure DbStateView where
  id : Nat
deriving DecidableEq, Repr

/-- The executable genesis transaction decoded from the blob. -/
structure Transaction where
  id : Nat
deriving DecidableEq, Repr

/-- A file system path. -/
structure Path where
  val : String
deriving DecidableEq, Repr

/-- The well-known account holding the global validator set
(`account_config::validator_set_address()`). -/
def validator_set_address : AccountAddress := ⟨1⟩

/-- The external world consumed by the verifier: the ledger database engine,
the file system, the bcs decoder and the genesis executor
(`AptosDB`, `File`, `bcs`, `executor::db_bootstrapper`). Each operation is a
pure function returning `Except String` (the error's display text). -/
structure GenesisEnv where
  aptosdb_open : Path → Except String AptosDB
  file_open : Path → Except String GenesisFile
  read_to_end : GenesisFile → Except String (List Nat)
  bcs_from_bytes : List Nat → Except String Transaction
  generate_waypoint : DbReaderWriter → Transaction → Except String Waypoint
  maybe_bootstrap : DbReaderWriter → Transaction → Waypoint → Except String Bool
  latest_state_checkpoint_view : AptosDB → Except String DbStateView
  get_validator_set : DbStateView → AccountAddress → Except String (Option ValidatorSet)
  temp_path : Path

/-- Map the error of an `Except String` computation into the management
error type (models the `map_err` closures in `verify.rs`). -/
def mapErr {α : Type} (f : String → Error) : Except String α → Except Error α
  | .ok a => .ok a
  | .error e => .error (f e)

/-- Rendering of a comparison line (`write_assert` in `verify.rs`):
the field name followed by `match` or `MISMATCH`. -/
def write_assert (buffer : List String) (name : String) (value : Bool) : List String :=
  buffer ++ [name ++ " - " ++ (if value then "match" else "MISMATCH")]

/-- The horizontal rule text between report sections: 84 equals signs, as in
the literal written by `write_break`. -/
def breakLine : String :=
  String.mk (List.replicate 84 '=')

/-- The horizontal rule between report sections (`write_break`). -/
def write_break (buffer : List String) : List String :=
  buffer ++ [breakLine]

/-- Dump line for a bls12381 key (`write_bls12381_key`): the public key's
display text, or the fetch error's display text on failure. -/
def write_bls12381_key (storage : Storage) (buffer : List String) (key : String) : List String :=
  let value :=
    match storage.bls12381_public_from_private key with
    | .ok v => v.toString
    | .error e => e.toString
  buffer ++ [key ++ " - " ++ value]

/-- Dump line for an ed25519 key (`write_ed25519_key`). -/
def write_ed25519_key (storage : Storage) (buffer : List String) (key : String) : List String :=
  let value :=
    match storage.ed25519_public_from_private key with
    | .ok v => v.toString
    | .error e => e.toString
  buffer ++ [key ++ " - " ++ value]

/-- Dump line for an x25519 key (`write_x25519_key`). -/
def write_x25519_key (storage : Storage) (buffer : List String) (key : String) : List String :=
  let value :=
    match storage.x25519_public_from_private key with
    | .ok v => v.toString
    | .error e => e.toString
  buffer ++ [key ++ " - " ++ value]

/-- Dump line for a raw string field (`write_string`). -/
def write_string (storage : Storage) (buffer : List String) (key : String) : List String :=
  let value :=
    match storage.string key with
    | .ok v => v
    | .error e => e.toString
  buffer ++ [key ++ " - " ++ value]

/-- Dump line for the safety data record (`write_safety_data`). -/
def write_safety_data (storage : Storage) (buffer : List String) (key : String) : List String :=
  let value :=
    match storage.safety_data_value key with
    | .ok v => v.toString
    | .error e => e.toString
  buffer ++ [key ++ " - " ++ value]

/-- Dump line for the stored waypoint (`write_waypoint`): the empty string is
the distinguished `empty` sentinel; a non-empty string that does not parse as
a waypoint renders `Invalid waypoint`; a fetch error renders its display
text. -/
def write_waypoint (storage : Storage) (buffer : List String) (key : String) : List String :=
  let value :=
    match storage.string key with
    | .ok value =>
      if value.isEmpty then
        "empty"
      else
        match Waypoint.fromStr value with
        | some c => c.toString
        | none => "Invalid waypoint"
    | .error e => e.toString
  buffer ++ [key ++ " - " ++ value]

/-- Compute the ledger given a genesis writeset transaction and return access
to that ledger and the waypoint for that state (`compute_genesis`). -/
def compute_genesis (env : GenesisEnv) (genesis_path : Path) (db_path : Path) :
    Except Error (DbReaderWriter × Waypoint) := do
  let aptosdb ← mapErr (fun e => Error.UnexpectedError e) (env.aptosdb_open db_path)
  let db_rw := DbReaderWriter.new aptosdb
  let file ← mapErr (fun e => Error.UnexpectedError ("Unable to open genesis file: " ++ e))
    (env.file_open genesis_path)
  let buffer ← mapErr (fun e => Error.UnexpectedError ("Unable to read genesis: " ++ e))
    (env.read_to_end file)
  let genesis ← mapErr (fun e => Error.UnexpectedError ("Unable to parse genesis: " ++ e))
    (env.bcs_from_bytes buffer)
  let waypoint ← mapErr (fun e => Error.UnexpectedError e)
    (env.generate_waypoint db_rw genesis)
  let _ ← mapErr (fun e => Error.UnexpectedError ("Unable to commit genesis: " ++ e))
    (env.maybe_bootstrap db_rw genesis waypoint)
  return (db_rw, waypoint)

/-- Read from the ledger the validator config from the validator set for the
specified account (`validator_config`). -/
def validator_config (env : GenesisEnv) (validator_account : AccountAddress)
    (reader : AptosDB) : Except Error ValidatorConfig := do
  let db_state_view ← mapErr
    (fun e => Error.UnexpectedError ("Can't create latest db state view " ++ e))
    (env.latest_state_checkpoint_view reader)
  let address := validator_set_address
  let validator_set_opt ← mapErr (fun e => Error.UnexpectedError ("ValidatorSet issue " ++ e))
    (env.get_validator_set db_state_view address)
  let validator_set ←
    match validator_set_opt with
    | some vs => pure vs
    | none => throw (Error.UnexpectedError "ValidatorSet does not exist")
  let info ←
    match validator_set.payload.find? (fun vi => decide (vi.account_address = validator_account)) with
    | some vi => pure vi
    | none =>
      throw (Error.UnexpectedError ("Unable to find Validator account " ++ validator_account.toString))
  return info.config

/-- Expected validator-network transport key: the embedded noise key, if any,
of the first validator network address; decode failure of the address list
falls back to the empty list (`unwrap_or_default` in `compare_genesis`). -/
def expected_validator_key_of (vc : ValidatorConfig) : Option X25519PublicKey :=
  let network_addrs : List NetworkAddress := vc.validator_network_addresses.toOption.getD []
  (network_addrs.get? 0).bind (fun addr => addr.find_noise_proto)

/-- Expected fullnode-network transport key: the embedded noise key, if any,
of the first fullnode network address; decode failure yields `none`
(`.ok().and_then(...)` in `compare_genesis`). -/
def expected_fullnode_key_of (vc : ValidatorConfig) : Option X25519PublicKey :=
  vc.fullnode_network_addresses.toOption.bind
    (fun addrs => (addrs.get? 0).bind (fun addr => addr.find_noise_proto))

/-- Comparison boolean for a network transport key line: the stored key
wrapped in `some` compared with the optional expected key
(`Some(actual) == expected` in `compare_genesis`). -/
def network_key_matches (actual : X25519PublicKey) (expected : Option X25519PublicKey) : Bool :=
  decide (some actual = expected)

/-- Genesis comparison phase (`compare_genesis`): recompute the waypoint and
on-chain validator config from the genesis blob and append one `match` /
`MISMATCH` line per field to the buffer; returns the extended buffer (the
Rust original mutates the buffer in place and returns `Ok(())`). -/
def compare_genesis (env : GenesisEnv) (storage : Storage) (buffer : List String)
    (genesis_path : Path) : Except Error (List String) := do
  let db_path := env.temp_path
  let (db_rw, expected_waypoint) ← compute_genesis env genesis_path db_path
  let actual_waypoint ← storage.waypoint WAYPOINT
  let buffer := write_assert buffer WAYPOINT (decide (actual_waypoint = expected_waypoint))
  let validator_account ← storage.account_address OWNER_ACCOUNT
  let vc ← validator_config env validator_account db_rw.reader
  let actual_consensus_key ← storage.bls12381_public_from_private CONSENSUS_KEY
  let expected_consensus_key := vc.consensus_public_key
  let buffer := write_assert buffer CONSENSUS_KEY
    (decide (actual_consensus_key = expected_consensus_key))
  let actual_validator_key ← storage.x25519_public_from_private VALIDATOR_NETWORK_KEY
  let actual_fullnode_key ← storage.x25519_public_from_private FULLNODE_NETWORK_KEY
  let expected_validator_key := expected_validator_key_of vc
  let buffer := write_assert buffer VALIDATOR_NETWORK_KEY
    (network_key_matches actual_validator_key expected_validator_key)
  let expected_fullnode_key := expected_fullnode_key_of vc
  let buffer := write_assert buffer FULLNODE_NETWORK_KEY
    (network_key_matches actual_fullnode_key expected_fullnode_key)
  return buffer

/-- The raw dump section of the report: header lines, five key lines and four
data lines separated by breaks (the body of `verify_genesis` before the
optional comparison). -/
def dumpLines (validator_storage : Storage) : List String :=
  let buffer : List String := []
  let buffer := buffer ++ ["Data stored in SecureStorage:"]
  let buffer := write_break buffer
  let buffer := buffer ++ ["Keys"]
  let buffer := write_break buffer
  let buffer := write_bls12381_key validator_storage buffer CONSENSUS_KEY
  let buffer := write_x25519_key validator_storage buffer FULLNODE_NETWORK_KEY
  let buffer := write_ed25519_key validator_storage buffer OWNER_KEY
  let buffer := write_ed25519_key validator_storage buffer OPERATOR_KEY
  let buffer := write_ed25519_key validator_storage buffer VALIDATOR_NETWORK_KEY
  let buffer := write_break buffer
  let buffer := buffer ++ ["Data"]
  let buffer := write_break buffer
  let buffer := write_string validator_storage buffer OPERATOR_ACCOUNT
  let buffer := write_string validator_storage buffer OWNER_ACCOUNT
  let buffer := write_safety_data validator_storage buffer SAFETY_DATA
  let buffer := write_waypoint validator_storage buffer WAYPOINT
  write_break buffer

/-- Top-level verification (`verify_genesis`): dump the secure storage
contents, then, only when a genesis path was supplied, run the comparison
phase; returns the report lines or the first fatal error. -/
def verify_genesis (env : GenesisEnv) (validator_storage : Storage)
    (genesis_path : Option Path) : Except Error (List String) := do
  let buffer := dumpLines validator_storage
  match genesis_path with
  | some genesis_path => compare_genesis env validator_storage buffer genesis_path
  | none => return buffer

/-! Concrete fixtures used to exercise the definitions on closed inputs. -/

/-- A validator network address embedding transport key 71. -/
def addrV : NetworkAddress := ⟨some ⟨71⟩⟩

/-- A fullnode network address embedding transport key 72. -/
def addrF : NetworkAddress := ⟨some ⟨72⟩⟩

/-- A fully populated validator configuration. -/
def vconf : ValidatorConfig := ⟨⟨10⟩, .ok [addrV], .ok [addrF]⟩

/-- Registration of account 5 with configuration `vconf`. -/
def vinfo : ValidatorInfo := ⟨⟨5⟩, vconf⟩

/-- A validator set with the single entry `vinfo`. -/
def vset : ValidatorSet := ⟨[vinfo]⟩

/-- A validator configuration whose validator address list fails to decode
while the fullnode address list decodes fine. -/
def vconfBadV : ValidatorConfig := ⟨⟨10⟩, .error "decode failure", .ok [addrF]⟩

/-- A validator configuration whose validator address list decodes fine
while the fullnode address list is empty. -/
def vconfBadF : ValidatorConfig := ⟨⟨10⟩, .ok [addrV], .ok []⟩

/-- A validator set registering account 5 with `vconfBadV`. -/
def vsetBadV : ValidatorSet := ⟨[⟨⟨5⟩, vconfBadV⟩]⟩

/-- A validator set registering account 5 with `vconfBadF`. -/
def vsetBadF : ValidatorSet := ⟨[⟨⟨5⟩, vconfBadF⟩]⟩

/-- An environment where every external operation succeeds and the committed
ledger serves `vset`. -/
def okEnv : GenesisEnv where
  aptosdb_open _ := .ok ⟨0⟩
  file_open _ := .ok ⟨0⟩
  read_to_end _ := .ok [1, 2, 3]
  bcs_from_bytes _ := .ok ⟨0⟩
  generate_waypoint _ _ := .ok ⟨3, 99⟩
  maybe_bootstrap _ _ _ := .ok true
  latest_state_checkpoint_view _ := .ok ⟨0⟩
  get_validator_set _ _ := .ok (some vset)
  temp_path := ⟨"tmp"⟩

/-- Like `okEnv` but the genesis file cannot be opened. -/
def fileErrEnv : GenesisEnv where
  aptosdb_open _ := .ok ⟨0⟩
  file_open _ := .error "no such file"
  read_to_end _ := .ok [1, 2, 3]
  bcs_from_bytes _ := .ok ⟨0⟩
  generate_waypoint _ _ := .ok ⟨3, 99⟩
  maybe_bootstrap _ _ _ := .ok true
  latest_state_checkpoint_view _ := .ok ⟨0⟩
  get_validator_set _ _ := .ok (some vset)
  temp_path := ⟨"tmp"⟩

/-- Like `okEnv` but reading the opened genesis file fails. -/
def readErrEnv : GenesisEnv where
  aptosdb_open _ := .ok ⟨0⟩
  file_open _ := .ok ⟨0⟩
  read_to_end _ := .error "io error"
  bcs_from_bytes _ := .ok ⟨0⟩
  generate_waypoint _ _ := .ok ⟨3, 99⟩
  maybe_bootstrap _ _ _ := .ok true
  latest_state_checkpoint_view _ := .ok ⟨0⟩
  get_validator_set _ _ := .ok (some vset)
  temp_path := ⟨"tmp"⟩

/-- Like `okEnv` but the genesis bytes fail to deserialize. -/
def parseErrEnv : GenesisEnv where
  aptosdb_open _ := .ok ⟨0⟩
  file_open _ := .ok ⟨0⟩
  read_to_end _ := .ok [1, 2, 3]
  bcs_from_bytes _ := .error "corrupt byte"
  generate_waypoint _ _ := .ok ⟨3, 99⟩
  maybe_bootstrap _ _ _ := .ok true
  latest_state_checkpoint_view _ := .ok ⟨0⟩
  get_validator_set _ _ := .ok (some vset)
  temp_path := ⟨"tmp"⟩

/-- Like `okEnv` but committing the genesis transaction fails. -/
def commitErrEnv : GenesisEnv where
  aptosdb_open _ := .ok ⟨0⟩
  file_open _ := .ok ⟨0⟩
  read_to_end _ := .ok [1, 2, 3]
  bcs_from_bytes _ := .ok ⟨0⟩
  generate_waypoint _ _ := .ok ⟨3, 99⟩
  maybe_bootstrap _ _ _ := .error "commit failure"
  latest_state_checkpoint_view _ := .ok ⟨0⟩
  get_validator_set _ _ := .ok (some vset)
  temp_path := ⟨"tmp"⟩

/-- Like `okEnv` but the on-chain validator set record is absent. -/
def vsAbsentEnv : GenesisEnv where
  aptosdb_open _ := .ok ⟨0⟩
  file_open _ := .ok ⟨0⟩
  read_to_end _ := .ok [1, 2, 3]
  bcs_from_bytes _ := .ok ⟨0⟩
  generate_waypoint _ _ := .ok ⟨3, 99⟩
  maybe_bootstrap _ _ _ := .ok true
  latest_state_checkpoint_view _ := .ok ⟨0⟩
  get_validator_set _ _ := .ok none
  temp_path := ⟨"tmp"⟩

/-- Like `okEnv` but the committed ledger serves `vsetBadV`. -/
def badVEnv : GenesisEnv where
  aptosdb_open _ := .ok ⟨0⟩
  file_open _ := .ok ⟨0⟩
  read_to_end _ := .ok [1, 2, 3]
  bcs_from_bytes _ := .ok ⟨0⟩
  generate_waypoint _ _ := .ok ⟨3, 99⟩
  maybe_bootstrap _ _ _ := .ok true
  latest_state_checkpoint_view _ := .ok ⟨0⟩
  get_validator_set _ _ := .ok (some vsetBadV)
  temp_path := ⟨"tmp"⟩

/-- Like `okEnv` but the committed ledger serves `vsetBadF`. -/
def badFEnv : GenesisEnv where
  aptosdb_open _ := .ok ⟨0⟩
  file_open _ := .ok ⟨0⟩
  read_to_end _ := .ok [1, 2, 3]
  bcs_from_bytes _ := .ok ⟨0⟩
  generate_waypoint _ _ := .ok ⟨3, 99⟩
  maybe_bootstrap _ _ _ := .ok true
  latest_state_checkpoint_view _ := .ok ⟨0⟩
  get_validator_set _ _ := .ok (some vsetBadF)
  temp_path := ⟨"tmp"⟩

/-- A storage backend where every read succeeds and every stored value agrees
with the state recomputed by `okEnv`. -/
def okStorage : Storage where
  bls12381_public_from_private _ := .ok ⟨10⟩
  ed25519_public_from_private _ := .ok ⟨20⟩
  x25519_public_from_private key := if key = VALIDATOR_NETWORK_KEY then .ok ⟨71⟩ else .ok ⟨72⟩
  string key := if key = WAYPOINT then .ok "3:99" else .ok "hello"
  safety_data_value _ := .ok ⟨1, 2⟩
  waypoint _ := .ok ⟨3, 99⟩
  account_address _ := .ok ⟨5⟩

/-- Like `okStorage` but reading the consensus private key fails. -/
def consensusErrStorage : Storage where
  bls12381_public_from_private _ := .error (.UnexpectedError "consensus key missing")
  ed25519_public_from_private _ := .ok ⟨20⟩
  x25519_public_from_private key := if key = VALIDATOR_NETWORK_KEY then .ok ⟨71⟩ else .ok ⟨72⟩
  string key := if key = WAYPOINT then .ok "3:99" else .ok "hello"
  safety_data_value _ := .ok ⟨1, 2⟩
  waypoint _ := .ok ⟨3, 99⟩
  account_address _ := .ok ⟨5⟩

/-- Like `okStorage` but reading the validator network private key fails. -/
def vnetErrStorage : Storage where
  bls12381_public_from_private _ := .ok ⟨10⟩
  ed25519_public_from_private _ := .ok ⟨20⟩
  x25519_public_from_private key :=
    if key = VALIDATOR_NETWORK_KEY then .error (.UnexpectedError "validator network key missing")
    else .ok ⟨72⟩
  string key := if key = WAYPOINT then .ok "3:99" else .ok "hello"
  safety_data_value _ := .ok ⟨1, 2⟩
  waypoint _ := .ok ⟨3, 99⟩
  account_address _ := .ok ⟨5⟩

/-- Like `okStorage` but reading the fullnode network private key fails. -/
def fnetErrStorage : Storage where
  bls12381_public_from_private _ := .ok ⟨10⟩
  ed25519_public_from_private _ := .ok ⟨20⟩
  x25519_public_from_private key :=
    if key = VALIDATOR_NETWORK_KEY then .ok ⟨71⟩
    else .error (.UnexpectedError "fullnode network key missing")
  string key := if key = WAYPOINT then .ok "3:99" else .ok "hello"
  safety_data_value _ := .ok ⟨1, 2⟩
  waypoint _ := .ok ⟨3, 99⟩
  account_address _ := .ok ⟨5⟩

/-- Like `okStorage` but the stored waypoint string is empty. -/
def emptyWpStorage : Storage where
  bls12381_public_from_private _ := .ok ⟨10⟩
  ed25519_public_from_private _ := .ok ⟨20⟩
  x25519_public_from_private key := if key = VALIDATOR_NETWORK_KEY then .ok ⟨71⟩ else .ok ⟨72⟩
  string key := if key = WAYPOINT then .ok "" else .ok "hello"
  safety_data_value _ := .ok ⟨1, 2⟩
  waypoint _ := .ok ⟨3, 99⟩
  account_address _ := .ok ⟨5⟩

/-! Helper lemmas shared by the claim theorems. -/

/-- Without a genesis path, `verify_genesis` is exactly the dump section. -/
theorem verify_genesis_none (env : GenesisEnv) (storage : Storage) :
    verify_genesis env storage none = .ok (dumpLines storage) := rfl

/-- With a genesis path, `verify_genesis` is the comparison phase run on the
dump section. -/
theorem verify_genesis_some (env : GenesisEnv) (storage : Storage) (p : Path) :
    verify_genesis env storage (some p) =
      compare_genesis env storage (dumpLines storage) p := rfl

/-- When every fetch and recompute step succeeds, the comparison phase
appends exactly the four assertion lines, whatever the four booleans are. -/
theorem compare_genesis_ok_eval (env : GenesisEnv) (storage : Storage) (buf : List String)
    (p : Path) (db : DbReaderWriter) (w aw : Waypoint) (acct : AccountAddress)
    (vc : ValidatorConfig) (ck : Bls12381PublicKey) (vk fk : X25519PublicKey)
    (hc : compute_genesis env p env.temp_path = .ok (db, w))
    (hw : storage.waypoint WAYPOINT = .ok aw)
    (ha : storage.account_address OWNER_ACCOUNT = .ok acct)
    (hv : validator_config env acct db.reader = .ok vc)
    (hk : storage.bls12381_public_from_private CONSENSUS_KEY = .ok ck)
    (hvk : storage.x25519_public_from_private VALIDATOR_NETWORK_KEY = .ok vk)
    (hfk : storage.x25519_public_from_private FULLNODE_NETWORK_KEY = .ok fk) :
    compare_genesis env storage buf p = .ok (buf ++
      [WAYPOINT ++ " - " ++ (if decide (aw = w) then "match" else "MISMATCH"),
       CONSENSUS_KEY ++ " - " ++
         (if decide (ck = vc.consensus_public_key) then "match" else "MISMATCH"),
       VALIDATOR_NETWORK_KEY ++ " - " ++
         (if network_key_matches vk (expected_validator_key_of vc) then "match" else "MISMATCH"),
       FULLNODE_NETWORK_KEY ++ " - " ++
         (if network_key_matches fk (expected_fullnode_key_of vc) then "match" else "MISMATCH")]) := by
  simp [compare_genesis, hc, hw, ha, hv, hk, hvk, hfk, Bind.bind, Except.bind,
    write_assert, Pure.pure, Except.pure]

/-- Any successful run of the comparison phase appends exactly four
assertion lines, in the fixed field order. -/
theorem compare_genesis_ok_shape (env : GenesisEnv) (storage : Storage) (buf : List String)
    (p : Path) (out : List String)
    (h : compare_genesis env storage buf p = .ok out) :
    ∃ (b1 b2 b3 b4 : Bool), out = buf ++
      [WAYPOINT ++ " - " ++ (if b1 then "match" else "MISMATCH"),
       CONSENSUS_KEY ++ " - " ++ (if b2 then "match" else "MISMATCH"),
       VALIDATOR_NETWORK_KEY ++ " - " ++ (if b3 then "match" else "MISMATCH"),
       FULLNODE_NETWORK_KEY ++ " - " ++ (if b4 then "match" else "MISMATCH")] := by
  cases hc : compute_genesis env p env.temp_path with
  | error e => simp [compare_genesis, hc, Bind.bind, Except.bind] at h
  | ok pr =>
    obtain ⟨db, w⟩ := pr
    cases hw : storage.waypoint WAYPOINT with
    | error e => simp [compare_genesis, hc, hw, Bind.bind, Except.bind] at h
    | ok aw =>
      cases ha : storage.account_address OWNER_ACCOUNT with
      | error e => simp [compare_genesis, hc, hw, ha, Bind.bind, Except.bind] at h
      | ok acct =>
        cases hv : validator_config env acct db.reader with
        | error e => simp [compare_genesis, hc, hw, ha, hv, Bind.bind, Except.bind] at h
        | ok vc =>
          cases hk : storage.bls12381_public_from_private CONSENSUS_KEY with
          | error e => simp [compare_genesis, hc, hw, ha, hv, hk, Bind.bind, Except.bind] at h
          | ok ck =>
            cases hvk : storage.x25519_public_from_private VALIDATOR_NETWORK_KEY with
            | error e =>
              simp [compare_genesis, hc, hw, ha, hv, hk, hvk, Bind.bind, Except.bind] at h
            | ok vk =>
              cases hfk : storage.x25519_public_from_private FULLNODE_NETWORK_KEY with
              | error e =>
                simp [compare_genesis, hc, hw, ha, hv, hk, hvk, hfk, Bind.bind, Except.bind] at h
              | ok fk =>
                refine ⟨decide (aw = w), decide (ck = vc.consensus_public_key),
                  network_key_matches vk (expected_validator_key_of vc),
                  network_key_matches fk (expected_fullnode_key_of vc), ?_⟩
                have he := compare_genesis_ok_eval env storage buf p db w aw acct vc ck vk fk
                  hc hw ha hv hk hvk hfk
                rw [he] at h
                exact (Except.ok.injEq _ _ ▸ h).symm

/-! Claim theorems. -/

/-- C2: any successful run of `compute_genesis` obtains its waypoint from
`generate_waypoint` (the standalone, pre-commit computation) and passes that
very waypoint, the same decoded transaction and the same ledger handle to
`maybe_bootstrap` (the commit), which succeeds; the returned ledger handle is
the one wrapping the freshly opened database. Hence the committed ledger and
the returned checkpoint agree. -/
theorem C2_waypoint_agreement (env : GenesisEnv) (gp dp : Path) (db : DbReaderWriter)
    (w : Waypoint) (h : compute_genesis env gp dp = .ok (db, w)) :
    ∃ (adb : AptosDB) (file : GenesisFile) (bytes : List Nat) (genesis : Transaction) (b : Bool),
      env.aptosdb_open dp = .ok adb ∧
      db = DbReaderWriter.new adb ∧
      env.file_open gp = .ok file ∧
      env.read_to_end file = .ok bytes ∧
      env.bcs_from_bytes bytes = .ok genesis ∧
      env.generate_waypoint db genesis = .ok w ∧
      env.maybe_bootstrap db genesis w = .ok b := by
  cases h1 : env.aptosdb_open dp with
  | error e => simp [compute_genesis, h1, Bind.bind, Except.bind, mapErr] at h
  | ok adb =>
    cases h2 : env.file_open gp with
    | error e => simp [compute_genesis, h1, h2, Bind.bind, Except.bind, mapErr] at h
    | ok file =>
      cases h3 : env.read_to_end file with
      | error e => simp [compute_genesis, h1, h2, h3, Bind.bind, Except.bind, mapErr] at h
      | ok bytes =>
        cases h4 : env.bcs_from_bytes bytes with
        | error e =>
          simp [compute_genesis, h1, h2, h3, h4, Bind.bind, Except.bind, mapErr] at h
        | ok genesis =>
          cases h5 : env.generate_waypoint (DbReaderWriter.new adb) genesis with
          | error e =>
            simp [compute_genesis, h1, h2, h3, h4, h5, Bind.bind, Except.bind, mapErr] at h
          | ok wp =>
            cases h6 : env.maybe_bootstrap (DbReaderWriter.new adb) genesis wp with
            | error e =>
              simp [compute_genesis, h1, h2, h3, h4, h5, h6, Bind.bind, Except.bind, mapErr] at h
            | ok b0 =>
              simp [compute_genesis, h1, h2, h3, h4, h5, h6, Bind.bind, Except.bind, mapErr,
                Pure.pure, Except.pure] at h
              obtain ⟨hdb, hw⟩ := h
              subst hdb
              subst hw
              exact ⟨adb, file, bytes, genesis, b0, rfl, rfl, rfl, h3, h4, h5, h6⟩

/-- Witness for C2 on a fully successful concrete environment. -/
theorem C2_witness :
    ∃ (adb : AptosDB) (file : GenesisFile) (bytes : List Nat) (genesis : Transaction) (b : Bool),
      okEnv.aptosdb_open ⟨"tmp"⟩ = .ok adb ∧
      (⟨⟨0⟩⟩ : DbReaderWriter) = DbReaderWriter.new adb ∧
      okEnv.file_open ⟨"g"⟩ = .ok file ∧
      okEnv.read_to_end file = .ok bytes ∧
      okEnv.bcs_from_bytes bytes = .ok genesis ∧
      okEnv.generate_waypoint ⟨⟨0⟩⟩ genesis = .ok ⟨3, 99⟩ ∧
      okEnv.maybe_bootstrap ⟨⟨0⟩⟩ genesis ⟨3, 99⟩ = .ok b :=
  C2_waypoint_agreement okEnv ⟨"g"⟩ ⟨"tmp"⟩ ⟨⟨0⟩⟩ ⟨3, 99⟩ (by decide)

/-- C3: without a genesis path the report is exactly the dump section; with a
genesis path any successful report is the dump section followed by exactly
four `name - match/MISMATCH` lines, in the order waypoint, consensus key,
validator network key, fullnode network key; and when every fetch succeeds
the run returns `Ok` whatever the four comparison booleans are, so a
`MISMATCH` never causes an error. -/
theorem C3_comparison_section (env : GenesisEnv) (storage : Storage) (p : Path) :
    verify_genesis env storage none = .ok (dumpLines storage) ∧
    (∀ out, verify_genesis env storage (some p) = .ok out →
      ∃ (b1 b2 b3 b4 : Bool), out = dumpLines storage ++
        [WAYPOINT ++ " - " ++ (if b1 then "match" else "MISMATCH"),
         CONSENSUS_KEY ++ " - " ++ (if b2 then "match" else "MISMATCH"),
         VALIDATOR_NETWORK_KEY ++ " - " ++ (if b3 then "match" else "MISMATCH"),
         FULLNODE_NETWORK_KEY ++ " - " ++ (if b4 then "match" else "MISMATCH")]) ∧
    (∀ (db : DbReaderWriter) (w aw : Waypoint) (acct : AccountAddress) (vc : ValidatorConfig)
       (ck : Bls12381PublicKey) (vk fk : X25519PublicKey),
      compute_genesis env p env.temp_path = .ok (db, w) →
      storage.waypoint WAYPOINT = .ok aw →
      storage.account_address OWNER_ACCOUNT = .ok acct →
      validator_config env acct db.reader = .ok vc →
      storage.bls12381_public_from_private CONSENSUS_KEY = .ok ck →
      storage.x25519_public_from_private VALIDATOR_NETWORK_KEY = .ok vk →
      storage.x25519_public_from_private FULLNODE_NETWORK_KEY = .ok fk →
      verify_genesis env storage (some p) = .ok (dumpLines storage ++
        [WAYPOINT ++ " - " ++ (if decide (aw = w) then "match" else "MISMATCH"),
         CONSENSUS_KEY ++ " - " ++
           (if decide (ck = vc.consensus_public_key) then "match" else "MISMATCH"),
         VALIDATOR_NETWORK_KEY ++ " - " ++
           (if network_key_matches vk (expected_validator_key_of vc) then "match" else "MISMATCH"),
         FULLNODE_NETWORK_KEY ++ " - " ++
           (if network_key_matches fk (expected_fullnode_key_of vc) then "match"
            else "MISMATCH")])) := by
  refine ⟨rfl, ?_, ?_⟩
  · intro out hout
    rw [verify_genesis_some] at hout
    exact compare_genesis_ok_shape env storage (dumpLines storage) p out hout
  · intro db w aw acct vc ck vk fk hc hw ha hv hk hvk hfk
    rw [verify_genesis_some]
    exact compare_genesis_ok_eval env storage (dumpLines storage) p db w aw acct vc ck vk
      fk hc hw ha hv hk hvk hfk

/-- Witness for C3: all four comparison lines of a fully consistent concrete
store render `match`, and the run succeeds. -/
theorem C3_witness :
    verify_genesis okEnv okStorage (some ⟨"g"⟩) = .ok (dumpLines okStorage ++
      [WAYPOINT ++ " - " ++ "match", CONSENSUS_KEY ++ " - " ++ "match",
       VALIDATOR_NETWORK_KEY ++ " - " ++ "match", FULLNODE_NETWORK_KEY ++ " - " ++ "match"]) := by
  have h := (C3_comparison_section okEnv okStorage ⟨"g"⟩).2.2 ⟨⟨0⟩⟩ ⟨3, 99⟩ ⟨3, 99⟩ ⟨5⟩ vconf
    ⟨10⟩ ⟨71⟩ ⟨72⟩ (by decide) (by decide) (by decide) (by decide) (by decide) (by decide)
    (by decide)
  exact h.trans (by decide)

/-- C4: the expected transport key of each traffic class is a function of the
first address of that class's list alone: replacing the tail of the list (or
every other field of the configuration) leaves it unchanged, and its value is
exactly the embedded key of the first address. -/
theorem C4_first_address_only (k k' : Bls12381PublicKey) (a : NetworkAddress)
    (t t' : List NetworkAddress) (r r' f f' : Except String (List NetworkAddress)) :
    expected_validator_key_of ⟨k, .ok (a :: t), f⟩ =
      expected_validator_key_of ⟨k', .ok (a :: t'), f'⟩ ∧
    expected_validator_key_of ⟨k, .ok (a :: t), f⟩ = a.find_noise_proto ∧
    expected_fullnode_key_of ⟨k, r, .ok (a :: t)⟩ =
      expected_fullnode_key_of ⟨k', r', .ok (a :: t')⟩ ∧
    expected_fullnode_key_of ⟨k, r, .ok (a :: t)⟩ = a.find_noise_proto := by
  refine ⟨?_, ?_, ?_, ?_⟩ <;>
    simp [expected_validator_key_of, expected_fullnode_key_of, Except.toOption]

/-- C5: a network transport key line matches exactly when the optional
expected key is present and equal to the stored key; an absent expected key
never matches. -/
theorem C5_option_key_comparison (a : X25519PublicKey) (e : Option X25519PublicKey) :
    (network_key_matches a e = true ↔ e = some a) ∧
    network_key_matches a none = false := by
  constructor
  · simp [network_key_matches, eq_comm]
  · simp [network_key_matches]

/-- C6: each failing stage of `compute_genesis` aborts with an error naming
that stage — opening, reading, parsing or committing the genesis — and a
failing `compute_genesis` makes `verify_genesis` with a genesis path return
that error, so no report is produced. -/
theorem C6_fatal_stage_errors (env : GenesisEnv) (gp dp : Path) (adb : AptosDB)
    (file : GenesisFile) (bytes : List Nat) (genesis : Transaction) (w : Waypoint)
    (m : String) (storage : Storage) (e : Error) :
    (env.aptosdb_open dp = .ok adb → env.file_open gp = .error m →
      compute_genesis env gp dp =
        .error (.UnexpectedError ("Unable to open genesis file: " ++ m))) ∧
    (env.aptosdb_open dp = .ok adb → env.file_open gp = .ok file →
      env.read_to_end file = .error m →
      compute_genesis env gp dp = .error (.UnexpectedError ("Unable to read genesis: " ++ m))) ∧
    (env.aptosdb_open dp = .ok adb → env.file_open gp = .ok file →
      env.read_to_end file = .ok bytes → env.bcs_from_bytes bytes = .error m →
      compute_genesis env gp dp = .error (.UnexpectedError ("Unable to parse genesis: " ++ m))) ∧
    (env.aptosdb_open dp = .ok adb → env.file_open gp = .ok file →
      env.read_to_end file = .ok bytes → env.bcs_from_bytes bytes = .ok genesis →
      env.generate_waypoint (DbReaderWriter.new adb) genesis = .ok w →
      env.maybe_bootstrap (DbReaderWriter.new adb) genesis w = .error m →
      compute_genesis env gp dp =
        .error (.UnexpectedError ("Unable to commit genesis: " ++ m))) ∧
    (compute_genesis env gp env.temp_path = .error e →
      verify_genesis env storage (some gp) = .error e) := by
  refine ⟨?_, ?_, ?_, ?_, ?_⟩
  · intro h1 h2
    simp [compute_genesis, h1, h2, Bind.bind, Except.bind, mapErr]
  · intro h1 h2 h3
    simp [compute_genesis, h1, h2, h3, Bind.bind, Except.bind, mapErr]
  · intro h1 h2 h3 h4
    simp [compute_genesis, h1, h2, h3, h4, Bind.bind, Except.bind, mapErr]
  · intro h1 h2 h3 h4 h5 h6
    simp [compute_genesis, h1, h2, h3, h4, h5, h6, Bind.bind, Except.bind, mapErr]
  · intro hc
    rw [verify_genesis_some]
    simp [compare_genesis, hc, Bind.bind, Except.bind]

/-- Witness for C6: concrete environments failing at each of the four stages
produce the corresponding stage error, and the parse failure propagates out
of `verify_genesis` with no report. -/
theorem C6_witness :
    compute_genesis fileErrEnv ⟨"g"⟩ ⟨"tmp"⟩ =
      .error (.UnexpectedError ("Unable to open genesis file: " ++ "no such file")) ∧
    compute_genesis readErrEnv ⟨"g"⟩ ⟨"tmp"⟩ =
      .error (.UnexpectedError ("Unable to read genesis: " ++ "io error")) ∧
    compute_genesis parseErrEnv ⟨"g"⟩ ⟨"tmp"⟩ =
      .error (.UnexpectedError ("Unable to parse genesis: " ++ "corrupt byte")) ∧
    compute_genesis commitErrEnv ⟨"g"⟩ ⟨"tmp"⟩ =
      .error (.UnexpectedError ("Unable to commit genesis: " ++ "commit failure")) ∧
    verify_genesis parseErrEnv okStorage (some ⟨"g"⟩) =
      .error (.UnexpectedError ("Unable to parse genesis: " ++ "corrupt byte")) := by
  refine ⟨?_, ?_, ?_, ?_, ?_⟩
  · exact (C6_fatal_stage_errors fileErrEnv ⟨"g"⟩ ⟨"tmp"⟩ ⟨0⟩ ⟨0⟩ [1, 2, 3] ⟨0⟩ ⟨3, 99⟩
      "no such file" okStorage (.UnexpectedError "x")).1 (by decide) (by decide)
  · exact (C6_fatal_stage_errors readErrEnv ⟨"g"⟩ ⟨"tmp"⟩ ⟨0⟩ ⟨0⟩ [1, 2, 3] ⟨0⟩ ⟨3, 99⟩
      "io error" okStorage (.UnexpectedError "x")).2.1 (by decide) (by decide) (by decide)
  · exact (C6_fatal_stage_errors parseErrEnv ⟨"g"⟩ ⟨"tmp"⟩ ⟨0⟩ ⟨0⟩ [1, 2, 3] ⟨0⟩ ⟨3, 99⟩
      "corrupt byte" okStorage (.UnexpectedError "x")).2.2.1 (by decide) (by decide) (by decide)
      (by decide)
  · exact (C6_fatal_stage_errors commitErrEnv ⟨"g"⟩ ⟨"tmp"⟩ ⟨0⟩ ⟨0⟩ [1, 2, 3] ⟨0⟩ ⟨3, 99⟩
      "commit failure" okStorage (.UnexpectedError "x")).2.2.2.1 (by decide) (by decide)
      (by decide) (by decide) (by decide) (by decide)
  · exact (C6_fatal_stage_errors parseErrEnv ⟨"g"⟩ ⟨"tmp"⟩ ⟨0⟩ ⟨0⟩ [1, 2, 3] ⟨0⟩ ⟨3, 99⟩
      "corrupt byte" okStorage
      (.UnexpectedError ("Unable to parse genesis: " ++ "corrupt byte"))).2.2.2.2 (by decide)

/-- C7: an absent on-chain validator set record makes `validator_config` fail
with `ValidatorSet does not exist`; a set without an entry for the requested
account makes it fail with an `Unable to find Validator account` error; such
a failure aborts a comparison run fatally, while a run without a genesis path
never consults the ledger and always succeeds. -/
theorem C7_validator_lookup (env : GenesisEnv) (acct : AccountAddress) (reader : AptosDB)
    (view : DbStateView) (vs : ValidatorSet) (storage : Storage) (p : Path)
    (db : DbReaderWriter) (w aw : Waypoint) (e : Error) :
    (env.latest_state_checkpoint_view reader = .ok view →
      env.get_validator_set view validator_set_address = .ok none →
      validator_config env acct reader = .error (.UnexpectedError "ValidatorSet does not exist")) ∧
    (env.latest_state_checkpoint_view reader = .ok view →
      env.get_validator_set view validator_set_address = .ok (some vs) →
      vs.payload.find? (fun vi => decide (vi.account_address = acct)) = none →
      validator_config env acct reader =
        .error (.UnexpectedError ("Unable to find Validator account " ++ acct.toString))) ∧
    (compute_genesis env p env.temp_path = .ok (db, w) →
      storage.waypoint WAYPOINT = .ok aw →
      storage.account_address OWNER_ACCOUNT = .ok acct →
      validator_config env acct db.reader = .error e →
      verify_genesis env storage (some p) = .error e) ∧
    verify_genesis env storage none = .ok (dumpLines storage) := by
  refine ⟨?_, ?_, ?_, rfl⟩
  · intro h1 h2
    simp [validator_config, h1, h2, Bind.bind, Except.bind, mapErr, throw, throwThe,
      MonadExceptOf.throw]
  · intro h1 h2 h3
    simp [validator_config, h1, h2, h3, Bind.bind, Except.bind, mapErr, throw, throwThe,
      MonadExceptOf.throw, Pure.pure, Except.pure]
  · intro hc hw ha hv
    rw [verify_genesis_some]
    simp [compare_genesis, hc, hw, ha, hv, Bind.bind, Except.bind, write_assert]

/-- Witness for C7: a concrete absent validator set, a concrete account
missing from the set, the resulting fatal comparison run, and a succeeding
run without a genesis path. -/
theorem C7_witness :
    validator_config vsAbsentEnv ⟨5⟩ ⟨0⟩ =
      .error (.UnexpectedError "ValidatorSet does not exist") ∧
    validator_config okEnv ⟨99⟩ ⟨0⟩ =
      .error (.UnexpectedError ("Unable to find Validator account " ++
        AccountAddress.toString ⟨99⟩)) ∧
    verify_genesis vsAbsentEnv okStorage (some ⟨"g"⟩) =
      .error (.UnexpectedError "ValidatorSet does not exist") ∧
    verify_genesis vsAbsentEnv okStorage none = .ok (dumpLines okStorage) := by
  refine ⟨?_, ?_, ?_, ?_⟩
  · exact (C7_validator_lookup vsAbsentEnv ⟨5⟩ ⟨0⟩ ⟨0⟩ vset okStorage ⟨"g"⟩ ⟨⟨0⟩⟩ ⟨3, 99⟩
      ⟨3, 99⟩ (.UnexpectedError "x")).1 (by decide) (by decide)
  · exact (C7_validator_lookup okEnv ⟨99⟩ ⟨0⟩ ⟨0⟩ vset okStorage ⟨"g"⟩ ⟨⟨0⟩⟩ ⟨3, 99⟩
      ⟨3, 99⟩ (.UnexpectedError "x")).2.1 (by decide) (by decide) (by decide)
  · exact (C7_validator_lookup vsAbsentEnv ⟨5⟩ ⟨0⟩ ⟨0⟩ vset okStorage ⟨"g"⟩ ⟨⟨0⟩⟩ ⟨3, 99⟩
      ⟨3, 99⟩ (.UnexpectedError "ValidatorSet does not exist")).2.2.1 (by decide) (by decide)
      (by decide) (by decide)
  · exact (C7_validator_lookup vsAbsentEnv ⟨5⟩ ⟨0⟩ ⟨0⟩ vset okStorage ⟨"g"⟩ ⟨⟨0⟩⟩ ⟨3, 99⟩
      ⟨3, 99⟩ (.UnexpectedError "x")).2.2.2

/-- C8: for every storage backend, the run without a genesis path succeeds
and the dump section is the fixed 17-line layout: header lines plus five key
lines and four data lines, each field line rendering either the value or the
fetch error's display text. No read outcome can suppress a line. -/
theorem C8_dump_always_complete (env : GenesisEnv) (storage : Storage) :
    verify_genesis env storage none = .ok (dumpLines storage) ∧
    dumpLines storage =
      ["Data stored in SecureStorage:", breakLine, "Keys", breakLine,
       CONSENSUS_KEY ++ " - " ++
         (match storage.bls12381_public_from_private CONSENSUS_KEY with
          | .ok v => v.toString
          | .error e => e.toString),
       FULLNODE_NETWORK_KEY ++ " - " ++
         (match storage.x25519_public_from_private FULLNODE_NETWORK_KEY with
          | .ok v => v.toString
          | .error e => e.toString),
       OWNER_KEY ++ " - " ++
         (match storage.ed25519_public_from_private OWNER_KEY with
          | .ok v => v.toString
          | .error e => e.toString),
       OPERATOR_KEY ++ " - " ++
         (match storage.ed25519_public_from_private OPERATOR_KEY with
          | .ok v => v.toString
          | .error e => e.toString),
       VALIDATOR_NETWORK_KEY ++ " - " ++
         (match storage.ed25519_public_from_private VALIDATOR_NETWORK_KEY with
          | .ok v => v.toString
          | .error e => e.toString),
       breakLine, "Data", breakLine,
       OPERATOR_ACCOUNT ++ " - " ++
         (match storage.string OPERATOR_ACCOUNT with
          | .ok v => v
          | .error e => e.toString),
       OWNER_ACCOUNT ++ " - " ++
         (match storage.string OWNER_ACCOUNT with
          | .ok v => v
          | .error e => e.toString),
       SAFETY_DATA ++ " - " ++
         (match storage.safety_data_value SAFETY_DATA with
          | .ok v => v.toString
          | .error e => e.toString),
       WAYPOINT ++ " - " ++
         (match storage.string WAYPOINT with
          | .ok v =>
            if v.isEmpty then "empty"
            else
              match Waypoint.fromStr v with
              | some c => c.toString
              | none => "Invalid waypoint"
          | .error e => e.toString),
       breakLine] := by
  refine ⟨rfl, ?_⟩
  simp [dumpLines, write_break, write_bls12381_key, write_x25519_key, write_ed25519_key,
    write_string, write_safety_data, write_waypoint]

/-- C9: when the stored waypoint string is empty, the waypoint dump line
renders the sentinel `empty`, both for `write_waypoint` on any buffer and at
its fixed position in the dump section. -/
theorem C9_empty_waypoint (storage : Storage) (h : storage.string WAYPOINT = .ok "") :
    (∀ buffer, write_waypoint storage buffer WAYPOINT =
      buffer ++ [WAYPOINT ++ " - " ++ "empty"]) ∧
    (dumpLines storage).get? 15 = some (WAYPOINT ++ " - " ++ "empty") := by
  have hEmpty : ("" : String).isEmpty = true := rfl
  constructor
  · intro buffer
    simp [write_waypoint, h, hEmpty]
  · simp [dumpLines, write_break, write_bls12381_key, write_x25519_key, write_ed25519_key,
      write_string, write_safety_data, write_waypoint, h, hEmpty]

/-- Witness for C9 on a concrete store holding an empty waypoint string. -/
theorem C9_witness :
    emptyWpStorage.string WAYPOINT = .ok "" ∧
    (dumpLines emptyWpStorage).get? 15 = some (WAYPOINT ++ " - " ++ "empty") :=
  ⟨by decide, (C9_empty_waypoint emptyWpStorage (by decide)).2⟩

/-- C1 counterexample: with a store whose consensus key read fails but whose
other reads succeed, and an environment where genesis recomputation fully
succeeds, `verify_genesis` with a genesis path returns the fetch error
instead of an `Ok` report — the comparison-phase fetch failure aborts the
run, contradicting the claim that the run is not aborted and still returns
`Ok` with the error rendered in the report. -/
theorem C1_counterexample :
    consensusErrStorage.bls12381_public_from_private CONSENSUS_KEY =
      .error (.UnexpectedError "consensus key missing") ∧
    compute_genesis okEnv ⟨"g"⟩ okEnv.temp_path = .ok (⟨⟨0⟩⟩, ⟨3, 99⟩) ∧
    verify_genesis okEnv consensusErrStorage (some ⟨"g"⟩) =
      .error (.UnexpectedError "consensus key missing") := by
  refine ⟨by decide, by decide, by decide⟩

/-- C1 (amended): in the comparison phase, a failure to read the stored
consensus key or either stored network transport key is propagated: once the
genesis recomputation, the stored waypoint read, the owner account read and
the validator config lookup have succeeded, such a fetch failure makes
`verify_genesis` return that error, aborting the run with no report. -/
theorem C1_comparison_fetch_failure_fatal (env : GenesisEnv) (storage : Storage) (p : Path)
    (db : DbReaderWriter) (w aw : Waypoint) (acct : AccountAddress) (vc : ValidatorConfig)
    (ck : Bls12381PublicKey) (vk : X25519PublicKey) (e : Error)
    (hc : compute_genesis env p env.temp_path = .ok (db, w))
    (hw : storage.waypoint WAYPOINT = .ok aw)
    (ha : storage.account_address OWNER_ACCOUNT = .ok acct)
    (hv : validator_config env acct db.reader = .ok vc) :
    (storage.bls12381_public_from_private CONSENSUS_KEY = .error e →
      verify_genesis env storage (some p) = .error e) ∧
    (storage.bls12381_public_from_private CONSENSUS_KEY = .ok ck →
      storage.x25519_public_from_private VALIDATOR_NETWORK_KEY = .error e →
      verify_genesis env storage (some p) = .error e) ∧
    (storage.bls12381_public_from_private CONSENSUS_KEY = .ok ck →
      storage.x25519_public_from_private VALIDATOR_NETWORK_KEY = .ok vk →
      storage.x25519_public_from_private FULLNODE_NETWORK_KEY = .error e →
      verify_genesis env storage (some p) = .error e) := by
  refine ⟨?_, ?_, ?_⟩ <;> intros <;> rw [verify_genesis_some] <;>
    simp [compare_genesis, hc, hw, ha, hv, Bind.bind, Except.bind, write_assert, *]

/-- Witness for the amended C1: each of the three comparison-phase key reads
failing on a concrete store aborts the run with that error. -/
theorem C1_amended_witness :
    verify_genesis okEnv consensusErrStorage (some ⟨"g"⟩) =
      .error (.UnexpectedError "consensus key missing") ∧
    verify_genesis okEnv vnetErrStorage (some ⟨"g"⟩) =
      .error (.UnexpectedError "validator network key missing") ∧
    verify_genesis okEnv fnetErrStorage (some ⟨"g"⟩) =
      .error (.UnexpectedError "fullnode network key missing") := by
  refine ⟨?_, ?_, ?_⟩
  · exact (C1_comparison_fetch_failure_fatal okEnv consensusErrStorage ⟨"g"⟩ ⟨⟨0⟩⟩ ⟨3, 99⟩
      ⟨3, 99⟩ ⟨5⟩ vconf ⟨10⟩ ⟨71⟩ (.UnexpectedError "consensus key missing")
      (by decide) (by decide) (by decide) (by decide)).1 (by decide)
  · exact (C1_comparison_fetch_failure_fatal okEnv vnetErrStorage ⟨"g"⟩ ⟨⟨0⟩⟩ ⟨3, 99⟩
      ⟨3, 99⟩ ⟨5⟩ vconf ⟨10⟩ ⟨71⟩ (.UnexpectedError "validator network key missing")
      (by decide) (by decide) (by decide) (by decide)).2.1 (by decide) (by decide)
  · exact (C1_comparison_fetch_failure_fatal okEnv fnetErrStorage ⟨"g"⟩ ⟨⟨0⟩⟩ ⟨3, 99⟩
      ⟨3, 99⟩ ⟨5⟩ vconf ⟨10⟩ ⟨71⟩ (.UnexpectedError "fullnode network key missing")
      (by decide) (by decide) (by decide) (by decide)).2.2 (by decide) (by decide) (by decide)

/-- C10: for each traffic class independently, when that class's on-chain
address list fails to decode or is empty, the expected transport key for that
class is `none`, no error is propagated, and — provided the stored keys
themselves were read successfully — the run still succeeds with that class's
comparison line emitted as `MISMATCH`, the other class's line keeping its
ordinary comparison outcome. -/
theorem C10_address_decode_failure (env : GenesisEnv) (storage : Storage) (p : Path)
    (db : DbReaderWriter) (w aw : Waypoint) (acct : AccountAddress) (vc : ValidatorConfig)
    (ck : Bls12381PublicKey) (vk fk : X25519PublicKey) (ev ef : String)
    (hc : compute_genesis env p env.temp_path = .ok (db, w))
    (hw : storage.waypoint WAYPOINT = .ok aw)
    (ha : storage.account_address OWNER_ACCOUNT = .ok acct)
    (hv : validator_config env acct db.reader = .ok vc)
    (hk : storage.bls12381_public_from_private CONSENSUS_KEY = .ok ck)
    (hvk : storage.x25519_public_from_private VALIDATOR_NETWORK_KEY = .ok vk)
    (hfk : storage.x25519_public_from_private FULLNODE_NETWORK_KEY = .ok fk) :
    ((vc.validator_network_addresses = .error ev ∨
        vc.validator_network_addresses = .ok []) →
      expected_validator_key_of vc = none ∧
      verify_genesis env storage (some p) = .ok (dumpLines storage ++
        [WAYPOINT ++ " - " ++ (if decide (aw = w) then "match" else "MISMATCH"),
         CONSENSUS_KEY ++ " - " ++
           (if decide (ck = vc.consensus_public_key) then "match" else "MISMATCH"),
         VALIDATOR_NETWORK_KEY ++ " - " ++ "MISMATCH",
         FULLNODE_NETWORK_KEY ++ " - " ++
           (if network_key_matches fk (expected_fullnode_key_of vc) then "match"
            else "MISMATCH")])) ∧
    ((vc.fullnode_network_addresses = .error ef ∨
        vc.fullnode_network_addresses = .ok []) →
      expected_fullnode_key_of vc = none ∧
      verify_genesis env storage (some p) = .ok (dumpLines storage ++
        [WAYPOINT ++ " - " ++ (if decide (aw = w) then "match" else "MISMATCH"),
         CONSENSUS_KEY ++ " - " ++
           (if decide (ck = vc.consensus_public_key) then "match" else "MISMATCH"),
         VALIDATOR_NETWORK_KEY ++ " - " ++
           (if network_key_matches vk (expected_validator_key_of vc) then "match"
            else "MISMATCH"),
         FULLNODE_NETWORK_KEY ++ " - " ++ "MISMATCH"])) := by
  constructor
  · intro hbadV
    have h1 : expected_validator_key_of vc = none := by
      rcases hbadV with h | h <;> simp [expected_validator_key_of, h, Except.toOption]
    refine ⟨h1, ?_⟩
    rw [verify_genesis_some]
    rw [compare_genesis_ok_eval env storage (dumpLines storage) p db w aw acct vc ck vk fk
      hc hw ha hv hk hvk hfk]
    simp [h1, network_key_matches]
  · intro hbadF
    have h2 : expected_fullnode_key_of vc = none := by
      rcases hbadF with h | h <;> simp [expected_fullnode_key_of, h, Except.toOption]
    refine ⟨h2, ?_⟩
    rw [verify_genesis_some]
    rw [compare_genesis_ok_eval env storage (dumpLines storage) p db w aw acct vc ck vk fk
      hc hw ha hv hk hvk hfk]
    simp [h2, network_key_matches]

/-- Witness for C10 on both mixed cases: a ledger whose registration has an
undecodable validator address list but a fine fullnode list yields a run with
only the validator network line `MISMATCH`, and one with a fine validator
list but an empty fullnode list yields a run with only the fullnode network
line `MISMATCH`; both runs succeed. -/
theorem C10_witness :
    (expected_validator_key_of vconfBadV = none ∧
     verify_genesis badVEnv okStorage (some ⟨"g"⟩) = .ok (dumpLines okStorage ++
       [WAYPOINT ++ " - " ++ "match", CONSENSUS_KEY ++ " - " ++ "match",
        VALIDATOR_NETWORK_KEY ++ " - " ++ "MISMATCH",
        FULLNODE_NETWORK_KEY ++ " - " ++ "match"])) ∧
    (expected_fullnode_key_of vconfBadF = none ∧
     verify_genesis badFEnv okStorage (some ⟨"g"⟩) = .ok (dumpLines okStorage ++
       [WAYPOINT ++ " - " ++ "match", CONSENSUS_KEY ++ " - " ++ "match",
        VALIDATOR_NETWORK_KEY ++ " - " ++ "match",
        FULLNODE_NETWORK_KEY ++ " - " ++ "MISMATCH"])) := by
  constructor
  · have h := (C10_address_decode_failure badVEnv okStorage ⟨"g"⟩ ⟨⟨0⟩⟩ ⟨3, 99⟩ ⟨3, 99⟩ ⟨5⟩
      vconfBadV ⟨10⟩ ⟨71⟩ ⟨72⟩ "decode failure" "unused" (by decide) (by decide) (by decide)
      (by decide) (by decide) (by decide) (by decide)).1 (Or.inl (by decide))
    exact ⟨h.1, h.2.trans (by decide)⟩
  · have h := (C10_address_decode_failure badFEnv okStorage ⟨"g"⟩ ⟨⟨0⟩⟩ ⟨3, 99⟩ ⟨3, 99⟩ ⟨5⟩
      vconfBadF ⟨10⟩ ⟨71⟩ ⟨72⟩ "unused" "unused" (by decide) (by decide) (by decide)
      (by decide) (by decide) (by decide) (by decide)).2 (Or.inr (by decide))
    exact ⟨h.1, h.2.trans (by decide)⟩

end GenesisVerify
